import Mathlib

/-!
Verification of the per-region latency aggregation service.

Shallow embedding of the two implementations in this repository:
* `src/api/latency.py` — embedded in namespace `Api`
* `src/main.py`        — embedded in namespace `MainPy`

Modelling conventions:
* Python float arithmetic is modelled exactly by `ℚ` (all values involved are
  small decimal numbers, where float and rational arithmetic agree).
* A JSON latency field value is modelled by `Option LatVal`: `none` stands for
  a missing key or JSON `null` (both of which `dict.get` reports as `None`);
  `LatVal.num q` for an `int`/`float` (Python `bool`s, being `int`s, are also
  covered, with `True ↝ 1`, `False ↝ 0`); `LatVal.numStr q` for a nonempty
  string that `float()` parses to `q`; `LatVal.bad` for any other (truthy)
  value — one on which `float()` raises and `isinstance(·, (int, float))`
  is false.
* File-system I/O in the two `load_telemetry_data` functions is abstracted
  into a `SourceState`: the data source is absent, unreadable (`open` fails),
  malformed (`json.load` fails), or readable with some record list.
* `Python round(x, d)` rounds half to even; `sorted` is an ascending stable
  sort, modelled by `List.insertionSort`.
-/

namespace LatencyVerif

/-- A value found in a record's latency field (see module docstring for the
correspondence with Python/JSON values). -/
inductive LatVal where
  | num (q : ℚ)
  | numStr (q : ℚ)
  | bad
deriving DecidableEq

/-- A telemetry record: a `region` string (absent region keys are the empty
string, matching `item.get('region', '')`), plus the two recognized latency
fields `latency_ms` and `latency`, each possibly missing. -/
structure Record where
  region : String
  latency_ms : Option LatVal := none
  latency : Option LatVal := none
deriving DecidableEq

/-- The per-region summary shape shared by both implementations
(`RegionMetrics` in `src/api/latency.py`, the result dict in `src/main.py`). -/
structure RegionMetrics where
  avg_latency : ℚ
  p95_latency : ℚ
  avg_uptime : ℚ
  breaches : ℕ
deriving DecidableEq

/-- The zero-value summary returned for degenerate regions. -/
def zeroMetrics : RegionMetrics := ⟨0, 0, 0, 0⟩

/-- Python `round(q, d)`: round half to even at `d` decimal places. -/
def pyRound (d : ℕ) (q : ℚ) : ℚ :=
  let s : ℚ := q * (10 : ℚ) ^ d
  let r : ℤ := if Int.fract s = 1 / 2 then (if 2 ∣ ⌊s⌋ then ⌊s⌋ else ⌊s⌋ + 1) else round s
  (r : ℚ) / (10 : ℚ) ^ d

/-- Python `sorted(data)`: ascending stable sort. -/
def pySorted (data : List ℚ) : List ℚ :=
  List.insertionSort (· ≤ ·) data

/-- Python `str.lower()`, character by character (`String.map Char.toLower`
written through the underlying character list so that it evaluates by
kernel reduction). -/
def strLower (s : String) : String :=
  ⟨s.data.map Char.toLower⟩

/-- Python truthiness of a latency-field value as used by the `or` chain in
`src/main.py` line 77: `None` and the number `0` are falsy; a nonempty string
or a nonzero number is truthy. -/
def truthy : Option LatVal → Bool
  | none => false
  | some (LatVal.num q) => decide (q ≠ 0)
  | some (LatVal.numStr _) => true
  | some LatVal.bad => true

/-- The state of the external telemetry data source seen by a
`load_telemetry_data` call. -/
inductive SourceState where
  | absent
  | unreadable
  | malformed
  | ok (records : List Record)

namespace Api

/-- `load_telemetry_data` of `src/api/latency.py` (lines 34-55): returns the
parsed records when a file is found and parses; returns `[]` when no candidate
path exists (lines 50-52) or when any exception is raised while opening or
parsing (lines 53-55). -/
def load_telemetry_data : SourceState → List Record
  | SourceState.ok records => records
  | _ => []

/-- The local `index` of `calculate_percentile` (line 69):
`(n - 1) * percentile / 100.0` for a working set of size `n`. -/
def index (n : ℕ) (percentile : ℚ) : ℚ :=
  (n - 1 : ℚ) * percentile / 100

/-- `calculate_percentile` of `src/api/latency.py` (lines 57-81); the Python
locals `sorted_data` and `index` appear here as `pySorted data` and
`index (pySorted data).length percentile`. Python `int(index)` (line 74)
truncates toward zero; every reachable `index` is nonnegative, where
truncation agrees with `⌊·⌋`. -/
def calculate_percentile (data : List ℚ) (percentile : ℚ) : ℚ :=
  if data = [] then 0
  else if (pySorted data).length = 1 then (pySorted data).getD 0 0
  else if ⌊index (pySorted data).length percentile⌋ = ⌈index (pySorted data).length percentile⌉
  then (pySorted data).getD (⌊index (pySorted data).length percentile⌋).toNat 0
  else
    (pySorted data).getD (⌊index (pySorted data).length percentile⌋).toNat 0 +
      ((pySorted data).getD (⌈index (pySorted data).length percentile⌉).toNat 0 -
          (pySorted data).getD (⌊index (pySorted data).length percentile⌋).toNat 0) *
        (index (pySorted data).length percentile -
          (⌊index (pySorted data).length percentile⌋ : ℚ))

/-- The region filter of `analyze_latency` (lines 98-101): keep records whose
lower-cased region equals the lower-cased query. -/
def regionData (data : List Record) (region : String) : List Record :=
  data.filter (fun item => strLower item.region == strLower region)

/-- The latency-extraction loop of `analyze_latency` (lines 114-118): skip a
record whose latency field is `None`, append `float(latency)` otherwise; a
value `float()` cannot handle raises (propagating to the handler's `except`,
line 149), modelled as `Except.error`. -/
def latencies : List Record → Except Unit (List ℚ)
  | [] => Except.ok []
  | item :: rest =>
    match item.latency with
    | none => latencies rest
    | some (LatVal.num q) => (latencies rest).map (fun qs => q :: qs)
    | some (LatVal.numStr q) => (latencies rest).map (fun qs => q :: qs)
    | some LatVal.bad => Except.error ()

/-- The statistics block of `analyze_latency` (lines 129-145) on a working set
of latencies: mean, `calculate_percentile(·, 95)`, count strictly above the
threshold, uptime fraction, with rounding to 2/2/4 decimal places. -/
def metricsOf (latencies : List ℚ) (threshold_ms : ℤ) : RegionMetrics :=
  ⟨pyRound 2 (latencies.sum / (latencies.length : ℚ)),
   pyRound 2 (calculate_percentile latencies 95),
   pyRound 4 (((latencies.length : ℚ) -
       ((latencies.filter (fun l => (threshold_ms : ℚ) < l)).length : ℚ)) /
     (latencies.length : ℚ)),
   (latencies.filter (fun l => (threshold_ms : ℚ) < l)).length⟩

/-- One iteration of the region loop of `analyze_latency` (lines 96-145):
zero summary for an empty match set or an empty working set, the computed
statistics otherwise; an extraction error propagates. -/
def regionMetrics (data : List Record) (region : String) (threshold_ms : ℤ) :
    Except Unit RegionMetrics :=
  if regionData data region = [] then Except.ok zeroMetrics
  else
    match latencies (regionData data region) with
    | Except.error e => Except.error e
    | Except.ok ls => if ls = [] then Except.ok zeroMetrics else Except.ok (metricsOf ls threshold_ms)

/-- `analyze_latency` of `src/api/latency.py` (lines 86-150): one summary per
requested region, in request order; the first exception anywhere aborts the
whole request with an internal server error (lines 93, 149-150). -/
def analyze_latency (data : List Record) (regions : List String) (threshold_ms : ℤ) :
    Except Unit (List (String × RegionMetrics)) :=
  match regions with
  | [] => Except.ok []
  | r :: rest =>
    match regionMetrics data r threshold_ms with
    | Except.error e => Except.error e
    | Except.ok m => (analyze_latency data rest threshold_ms).map (fun res => (r, m) :: res)

end Api

namespace MainPy

/-- The hard-coded sample dataset of `src/main.py` (lines 40-47). -/
def sampleData : List Record :=
  [⟨"emea", some (LatVal.num 150), none⟩,
   ⟨"emea", some (LatVal.num 160), none⟩,
   ⟨"emea", some (LatVal.num 200), none⟩,
   ⟨"amer", some (LatVal.num 140), none⟩,
   ⟨"amer", some (LatVal.num 170), none⟩,
   ⟨"amer", some (LatVal.num 190), none⟩]

/-- `load_telemetry_data` of `src/main.py` (lines 25-50): parsed records when
the file exists and parses; the sample dataset when the file is absent
(lines 37-47); `[]` when opening or parsing raises (lines 48-50). -/
def load_telemetry_data : SourceState → List Record
  | SourceState.ok records => records
  | SourceState.absent => sampleData
  | _ => []

/-- The latency extraction of `calculate_metrics` (lines 74-82):
`record.get("latency_ms") or record.get("latency") or 0`, then append the
value if `isinstance(·, (int, float))` and append `0` otherwise. Every record
contributes an entry. -/
def latencyOf (record : Record) : ℚ :=
  let v : Option LatVal :=
    if truthy record.latency_ms then record.latency_ms
    else if truthy record.latency then record.latency
    else some (LatVal.num 0)
  match v with
  | some (LatVal.num q) => q
  | _ => 0

/-- The region filter of `calculate_metrics` (line 63): exact equality of the
stored region and the query. -/
def regionData (data : List Record) (region : String) : List Record :=
  data.filter (fun d => d.region == region)

/-- The 95th-percentile computation of `calculate_metrics` (lines 100-105):
nearest-rank truncation `sorted[int(0.95 * n)]`, with a last-element fallback
guard. The surrounding `except` (line 104) is unreachable on a list of
numbers and is not modelled. -/
def p95 (latencies : List ℚ) : ℚ :=
  if (⌊(95 / 100 : ℚ) * ((pySorted latencies).length : ℚ)⌋).toNat < (pySorted latencies).length
  then (pySorted latencies).getD (⌊(95 / 100 : ℚ) * ((pySorted latencies).length : ℚ)⌋).toNat 0
  else ((pySorted latencies).getLast?).getD 0

/-- The statistics block of `calculate_metrics` (lines 93-117) on a working
set of latencies: `statistics.mean` (its `except`, line 96, is unreachable on
a nonempty list of numbers), nearest-rank p95, uptime as a 0-100 percentage,
strict-exceed breach count, all rounded to 2 decimal places. -/
def metricsOf (latencies : List ℚ) (threshold_ms : ℤ) : RegionMetrics :=
  ⟨pyRound 2 (latencies.sum / (latencies.length : ℚ)),
   pyRound 2 (p95 latencies),
   pyRound 2 (if latencies = [] then 0 else
     (((latencies.filter (fun l => l ≤ (threshold_ms : ℚ))).length : ℚ) /
         (latencies.length : ℚ)) * 100),
   (latencies.filter (fun l => (threshold_ms : ℚ) < l)).length⟩

/-- One iteration of the region loop of `calculate_metrics` (lines 61-117):
zero summary for an empty match set (the inner `if not latencies` guard,
lines 84-91, is dead code, since every record contributes an entry). -/
def metricsForRegion (data : List Record) (region : String) (threshold_ms : ℤ) :
    RegionMetrics :=
  if regionData data region = [] then zeroMetrics
  else
    let latencies := (regionData data region).map latencyOf
    if latencies = [] then zeroMetrics else metricsOf latencies threshold_ms

/-- `calculate_metrics` of `src/main.py` (lines 52-124): one summary per
requested region, in request order. The outer `except` (lines 122-124) is
unreachable in the embedded fragment. -/
def calculate_metrics (data : List Record) (regions : List String) (threshold_ms : ℤ) :
    List (String × RegionMetrics) :=
  regions.map (fun region => (region, metricsForRegion data region threshold_ms))

end MainPy

/-- Modelled from the spec: the continuous rank `r = (n - 1) * 0.95` of
claim C2, for a working set of size `n`. -/
def specRank (n : ℕ) : ℚ :=
  (n - 1 : ℚ) * (95 / 100)

/-- Modelled from the spec: the reference 95th-percentile of claim C2 — sort
ascending, let `n` be the count, take the continuous rank `r = (n - 1) * 0.95`;
if `r` lands exactly on an integer index return the value there, otherwise
interpolate between the values at `⌊r⌋` and `⌈r⌉` weighted by the fractional
part of `r`; for `n = 1` return the single value. Written from the claim's
words, for comparison with `Api.calculate_percentile`. -/
def specP95 (workingSet : List ℚ) : ℚ :=
  if (pySorted workingSet).length = 1 then (pySorted workingSet).getD 0 0
  else if Int.fract (specRank (pySorted workingSet).length) = 0
  then (pySorted workingSet).getD (⌊specRank (pySorted workingSet).length⌋).toNat 0
  else
    (pySorted workingSet).getD (⌊specRank (pySorted workingSet).length⌋).toNat 0 +
      (specRank (pySorted workingSet).length - (⌊specRank (pySorted workingSet).length⌋ : ℚ)) *
        ((pySorted workingSet).getD (⌈specRank (pySorted workingSet).length⌉).toNat 0 -
          (pySorted workingSet).getD (⌊specRank (pySorted workingSet).length⌋).toNat 0)

/-- The worked example dataset of the spec: five records for one region with
latencies 100, 120, 130, 140, 500. -/
def data5 : List Record :=
  [⟨"a", none, some (LatVal.num 100)⟩,
   ⟨"a", none, some (LatVal.num 120)⟩,
   ⟨"a", none, some (LatVal.num 130)⟩,
   ⟨"a", none, some (LatVal.num 140)⟩,
   ⟨"a", none, some (LatVal.num 500)⟩]

/-- The working set of latencies of the spec's worked example. -/
def ws5 : List ℚ := [100, 120, 130, 140, 500]

/-- A record with no latency field at all. -/
def noLat : Record := ⟨"a", none, none⟩

/-- A record whose latency field holds a value `float()` cannot parse. -/
def badRec : Record := ⟨"a", none, some LatVal.bad⟩

/-- A record whose region differs from the query only in case. -/
def emeaRec : Record := ⟨"EMEA", none, some (LatVal.num 100)⟩

lemma pySorted_perm (ws : List ℚ) : List.Perm (pySorted ws) ws :=
  List.perm_insertionSort _ ws

lemma pySorted_sorted (ws : List ℚ) : (pySorted ws).Sorted (· ≤ ·) :=
  List.sorted_insertionSort _ ws

lemma pySorted_getD_le_getD (ws : List ℚ) {i j : ℕ} (hij : i ≤ j)
    (hj : j < (pySorted ws).length) :
    (pySorted ws).getD i 0 ≤ (pySorted ws).getD j 0 := by
  have hi : i < (pySorted ws).length := Nat.lt_of_le_of_lt hij hj
  rw [List.getD_eq_getElem _ _ hi, List.getD_eq_getElem _ _ hj]
  have h2 := (pySorted_sorted ws).rel_get_of_le (a := ⟨i, hi⟩) (b := ⟨j, hj⟩) hij
  simpa using h2

lemma length_filter_le_add_lt (t : ℚ) (l : List ℚ) :
    (l.filter (fun x => x ≤ t)).length + (l.filter (fun x => t < x)).length = l.length := by
  induction l with
  | nil => simp
  | cons a l ih =>
    by_cases h : a ≤ t
    · simp [List.filter_cons, h, not_lt.mpr h]
      omega
    · simp [List.filter_cons, h, not_le.mp h]
      omega

lemma floor_eq_ceil_iff_fract_eq_zero (r : ℚ) : ⌊r⌋ = ⌈r⌉ ↔ Int.fract r = 0 := by
  constructor
  · intro he
    have h1 := Int.floor_le r
    have h2 := Int.le_ceil r
    have h3 : (⌊r⌋ : ℚ) = r := le_antisymm h1 (by rw [he]; exact h2)
    rw [Int.fract, h3, sub_self]
  · intro hf
    have h3 : r = (⌊r⌋ : ℚ) := by
      have h4 : r - (⌊r⌋ : ℚ) = 0 := hf
      linarith
    rw [h3, Int.ceil_intCast, Int.floor_intCast]

lemma api_index_eq_specRank (n : ℕ) : Api.index n 95 = specRank n := by
  rw [Api.index, specRank]
  ring

lemma calculate_percentile_eq_specP95 (ws : List ℚ) (h : ws ≠ []) :
    Api.calculate_percentile ws 95 = specP95 ws := by
  rw [Api.calculate_percentile, specP95, if_neg h, api_index_eq_specRank]
  by_cases h1 : (pySorted ws).length = 1
  · rw [if_pos h1, if_pos h1]
  · rw [if_neg h1, if_neg h1]
    by_cases h2 : ⌊specRank (pySorted ws).length⌋ = ⌈specRank (pySorted ws).length⌉
    · rw [if_pos h2, if_pos ((floor_eq_ceil_iff_fract_eq_zero _).mp h2)]
    · rw [if_neg h2, if_neg (fun hf => h2 ((floor_eq_ceil_iff_fract_eq_zero _).mpr hf))]
      ring

lemma percentile_sandwich (ws : List ℚ) (h : ws ≠ []) :
    ∃ a ∈ ws, ∃ b ∈ ws,
      a ≤ Api.calculate_percentile ws 95 ∧ Api.calculate_percentile ws 95 ≤ b := by
  have hperm := pySorted_perm ws
  have hlen : (pySorted ws).length = ws.length := hperm.length_eq
  have hpos : 0 < (pySorted ws).length := by
    rw [hlen]
    exact List.length_pos.mpr h
  have hmemD : ∀ i : ℕ, i < (pySorted ws).length → (pySorted ws).getD i 0 ∈ ws := by
    intro i hi
    rw [List.getD_eq_getElem _ _ hi]
    exact hperm.mem_iff.mp (List.getElem_mem hi)
  rw [Api.calculate_percentile, if_neg h]
  by_cases h1 : (pySorted ws).length = 1
  · rw [if_pos h1]
    exact ⟨_, hmemD 0 hpos, _, hmemD 0 hpos, le_refl _, le_refl _⟩
  · rw [if_neg h1]
    have hone : (1 : ℚ) ≤ ((pySorted ws).length : ℚ) := by exact_mod_cast hpos
    have hidx0 : 0 ≤ Api.index (pySorted ws).length 95 := by
      rw [Api.index]
      have h6 : 0 ≤ ((pySorted ws).length : ℚ) - 1 := by linarith
      positivity
    have hidxle : Api.index (pySorted ws).length 95 ≤ ((pySorted ws).length : ℚ) - 1 := by
      rw [Api.index]
      have h6 : 0 ≤ ((pySorted ws).length : ℚ) - 1 := by linarith
      nlinarith
    have hf0 : 0 ≤ ⌊Api.index (pySorted ws).length 95⌋ :=
      Int.le_floor.mpr (by exact_mod_cast hidx0)
    have hcle : ⌈Api.index (pySorted ws).length 95⌉ ≤ ((pySorted ws).length : ℤ) - 1 := by
      apply Int.ceil_le.mpr
      push_cast
      exact hidxle
    have hfc := Int.floor_le_ceil (Api.index (pySorted ws).length 95)
    have hfnat : (⌊Api.index (pySorted ws).length 95⌋).toNat < (pySorted ws).length := by omega
    have hcnat : (⌈Api.index (pySorted ws).length 95⌉).toNat < (pySorted ws).length := by omega
    by_cases h2 : ⌊Api.index (pySorted ws).length 95⌋ = ⌈Api.index (pySorted ws).length 95⌉
    · rw [if_pos h2]
      exact ⟨_, hmemD _ hfnat, _, hmemD _ hfnat, le_refl _, le_refl _⟩
    · rw [if_neg h2]
      have hwlow : 0 ≤ Api.index (pySorted ws).length 95 -
          (⌊Api.index (pySorted ws).length 95⌋ : ℚ) := by
        have h7 := Int.floor_le (Api.index (pySorted ws).length 95)
        linarith
      have hwhigh : Api.index (pySorted ws).length 95 -
          (⌊Api.index (pySorted ws).length 95⌋ : ℚ) ≤ 1 := by
        have h7 := Int.lt_floor_add_one (Api.index (pySorted ws).length 95)
        linarith
      have hlu : (pySorted ws).getD (⌊Api.index (pySorted ws).length 95⌋).toNat 0 ≤
          (pySorted ws).getD (⌈Api.index (pySorted ws).length 95⌉).toNat 0 := by
        apply pySorted_getD_le_getD ws _ hcnat
        omega
      refine ⟨_, hmemD _ hfnat, _, hmemD _ hcnat, ?_, ?_⟩
      · nlinarith
      · nlinarith

lemma latencies_ok_of_no_bad (l : List Record)
    (hnb : ∀ r ∈ l, r.latency ≠ some LatVal.bad) :
    ∃ qs, Api.latencies l = Except.ok qs := by
  induction l with
  | nil => exact ⟨[], rfl⟩
  | cons item rest ih =>
    have htail : ∀ r ∈ rest, r.latency ≠ some LatVal.bad :=
      fun r hr => hnb r (List.mem_cons_of_mem _ hr)
    obtain ⟨qs, hqs⟩ := ih htail
    cases hv : item.latency with
    | none =>
      refine ⟨qs, ?_⟩
      rw [Api.latencies, hv]
      exact hqs
    | some v =>
      cases v with
      | num q =>
        refine ⟨q :: qs, ?_⟩
        rw [Api.latencies, hv, hqs]
        rfl
      | numStr q =>
        refine ⟨q :: qs, ?_⟩
        rw [Api.latencies, hv, hqs]
        rfl
      | bad => exact absurd hv (hnb item (List.mem_cons_self _ _))

lemma regionMetrics_ok (data : List Record) (region : String) (t : ℤ)
    (hnb : ∀ rec ∈ Api.regionData data region, rec.latency ≠ some LatVal.bad) :
    ∃ m, Api.regionMetrics data region t = Except.ok m := by
  rw [Api.regionMetrics]
  by_cases hrd : Api.regionData data region = []
  · rw [if_pos hrd]
    exact ⟨_, rfl⟩
  · rw [if_neg hrd]
    obtain ⟨qs, hqs⟩ := latencies_ok_of_no_bad _ hnb
    rw [hqs]
    show ∃ m, (if qs = [] then Except.ok zeroMetrics
        else Except.ok (Api.metricsOf qs t)) = Except.ok m
    by_cases hq : qs = []
    · rw [if_pos hq]
      exact ⟨_, rfl⟩
    · rw [if_neg hq]
      exact ⟨_, rfl⟩

lemma analyze_ok (data : List Record) (t : ℤ) (regions : List String)
    (hnb : ∀ r ∈ regions, ∀ rec ∈ Api.regionData data r, rec.latency ≠ some LatVal.bad) :
    ∃ res, Api.analyze_latency data regions t = Except.ok res ∧
      ∀ r ∈ regions, ∃ m, (r, m) ∈ res := by
  revert hnb
  induction regions with
  | nil => exact fun _ => ⟨[], rfl, by simp⟩
  | cons r rest ih =>
    intro hnb
    obtain ⟨m, hm⟩ := regionMetrics_ok data r t (hnb r (List.mem_cons_self _ _))
    obtain ⟨res, hres, hall⟩ := ih (fun x hx => hnb x (List.mem_cons_of_mem _ hx))
    refine ⟨(r, m) :: res, ?_, ?_⟩
    · rw [Api.analyze_latency, hm, hres]
      rfl
    · intro x hx
      rcases List.mem_cons.mp hx with hx1 | hx2
      · refine ⟨m, ?_⟩
        rw [hx1]
        exact List.mem_cons_self _ _
      · obtain ⟨mx, hmx⟩ := hall x hx2
        exact ⟨mx, List.mem_cons_of_mem _ hmx⟩

lemma calculate_metrics_total (data : List Record) (regions : List String) (t : ℤ) :
    ∀ r ∈ regions, ∃ m, (r, m) ∈ MainPy.calculate_metrics data regions t :=
  fun r hr => ⟨MainPy.metricsForRegion data r t, List.mem_map_of_mem _ hr⟩

/-- Claim C1 (code bug in `src/main.py`): a record carrying no latency value
must be dropped from the working set, never treated as latency 0. The
`analyze_latency` extraction of `src/api/latency.py` indeed drops it, but
`calculate_metrics` of `src/main.py` appends `0` for it: on a single-record
dataset with no latency field, the working set is `[0]`, not `[]`, and the
resulting summary is computed over that coerced zero. -/
theorem C1_main_coerces_missing_latency :
    MainPy.latencyOf noLat = 0 ∧
    (MainPy.regionData [noLat] "a").map MainPy.latencyOf = [0] ∧
    MainPy.calculate_metrics [noLat] ["a"] 150 = [("a", ⟨0, 0, 100, 0⟩)] ∧
    Api.latencies [noLat] = Except.ok [] ∧
    Api.regionMetrics [noLat] "a" 150 = Except.ok zeroMetrics := by
  refine ⟨?_, ?_, ?_, ?_, ?_⟩ <;> with_unfolding_all rfl

set_option maxRecDepth 20000 in
/-- Claim C2 (counterexample): on the working set `[100, 120, 130, 140, 500]`
the p95 statistic of `src/main.py` is `500` (nearest-rank truncation
`sorted[int(0.95 * n)]`), not the interpolated value `428`. -/
theorem C2_counterexample_main_nearest_rank :
    MainPy.p95 ws5 = 500 ∧ (MainPy.metricsOf ws5 150).p95_latency = 500 ∧
    pyRound 2 (specP95 ws5) = 428 ∧ (500 : ℚ) ≠ 428 := by
  refine ⟨?_, ?_, ?_, ?_⟩ <;> with_unfolding_all decide

/-- Claim C2 (amended): the p95 statistic of `src/api/latency.py` equals the
linearly interpolated 95th percentile described by the claim, rounded to 2
decimal places; `src/main.py` instead uses nearest-rank truncation. -/
theorem C2_api_p95_interpolated (ws : List ℚ) (t : ℤ) (h : ws ≠ []) :
    (Api.metricsOf ws t).p95_latency = pyRound 2 (specP95 ws) := by
  show pyRound 2 (Api.calculate_percentile ws 95) = pyRound 2 (specP95 ws)
  rw [calculate_percentile_eq_specP95 ws h]

/-- Witness for C2 at the spec's worked example. -/
theorem C2_api_p95_interpolated_witness :
    (Api.metricsOf ws5 150).p95_latency = pyRound 2 (specP95 ws5) :=
  C2_api_p95_interpolated ws5 150 (by with_unfolding_all decide)

/-- Claim C3 (code bug in `src/main.py`): a region whose records all lack a
usable latency should yield the zero summary `{0.0, 0.0, 0.0, 0}`.
`src/api/latency.py` does; `src/main.py` instead computes over coerced zeros
and returns `avg_uptime = 100.0` (with any threshold `≥ 0`). Both
implementations do return the zero summary for a region with no matching
records. -/
theorem C3_all_missing_latency_summary :
    MainPy.metricsForRegion [noLat] "a" 100 = ⟨0, 0, 100, 0⟩ ∧
    (⟨0, 0, 100, 0⟩ : RegionMetrics) ≠ zeroMetrics ∧
    Api.regionMetrics [noLat] "a" 100 = Except.ok zeroMetrics ∧
    MainPy.metricsForRegion [] "eu-west" 100 = zeroMetrics ∧
    Api.regionMetrics [] "eu-west" 100 = Except.ok zeroMetrics := by
  refine ⟨?_, ?_, ?_, ?_, ?_⟩
  · with_unfolding_all rfl
  · with_unfolding_all decide
  · with_unfolding_all rfl
  · rfl
  · rfl

/-- Claim C4 (counterexample): on the example working set with threshold 150,
`src/main.py` does not return the claimed summary
`(198.0, 428.0, 4/5, 1)` — its p95 is `500` and its uptime is `80.0`. -/
theorem C4_counterexample_main_example_values :
    MainPy.metricsOf ws5 150 ≠ ⟨198, 428, 4 / 5, 1⟩ := by
  with_unfolding_all decide

/-- Claim C4 (amended): on the working set `[100, 120, 130, 140, 500]` with
threshold 150, `src/api/latency.py` returns exactly the claimed values
`avg_latency = 198.0`, `p95_latency = 428.0`, `avg_uptime = 4/5`,
`breaches = 1`; `src/main.py` returns the same mean and breach count but
`p95_latency = 500.0` (nearest rank) and `avg_uptime = 80.0` (percentage). -/
theorem C4_example_values :
    Api.metricsOf ws5 150 = ⟨198, 428, 4 / 5, 1⟩ ∧
    MainPy.metricsOf ws5 150 = ⟨198, 500, 80, 1⟩ ∧
    Api.analyze_latency data5 ["a"] 150 = Except.ok [("a", ⟨198, 428, 4 / 5, 1⟩)] := by
  refine ⟨?_, ?_, ?_⟩ <;> with_unfolding_all rfl

/-- Claim C5 (counterexample): when the data source is absent,
`load_telemetry_data` of `src/main.py` does not return an empty collection —
it returns the built-in six-record sample dataset. -/
theorem C5_counterexample_main_absent_sample :
    MainPy.load_telemetry_data SourceState.absent ≠ [] := by
  with_unfolding_all decide

/-- Claim C5 (amended): `load_telemetry_data` of `src/api/latency.py` returns
the empty collection on every load failure (absent, unreadable, malformed);
`load_telemetry_data` of `src/main.py` returns the empty collection on
unreadable or malformed sources but falls back to its hard-coded six-record
sample dataset when the file is absent. -/
theorem C5_load_failure_results :
    Api.load_telemetry_data SourceState.absent = [] ∧
    Api.load_telemetry_data SourceState.unreadable = [] ∧
    Api.load_telemetry_data SourceState.malformed = [] ∧
    MainPy.load_telemetry_data SourceState.unreadable = [] ∧
    MainPy.load_telemetry_data SourceState.malformed = [] ∧
    MainPy.load_telemetry_data SourceState.absent = MainPy.sampleData ∧
    MainPy.sampleData.length = 6 :=
  ⟨rfl, rfl, rfl, rfl, rfl, rfl, rfl⟩

/-- Claim C6 (counterexample): for the working set `[100]` with threshold 150,
`src/main.py` reports `avg_uptime = 100.0`, not the claimed
`(working_set_size - breaches) / working_set_size = 1`. -/
theorem C6_counterexample_main_uptime_percent :
    (MainPy.metricsOf [100] 150).avg_uptime = 100 ∧
    (100 : ℚ) ≠ ((([100] : List ℚ).length : ℚ) -
        ((([100] : List ℚ).filter (fun l => (150 : ℚ) < l)).length : ℚ)) /
      (([100] : List ℚ).length : ℚ) := by
  refine ⟨?_, ?_⟩ <;> with_unfolding_all decide

/-- Claim C6 (amended): in both implementations `breaches` counts the
working-set records strictly above the threshold, and the count used for the
uptime numerator is complementary to `breaches` over the working-set size;
`avg_uptime` is `(n - breaches) / n` rounded to 4 decimal places in
`src/api/latency.py`, and `((n - breaches) / n) * 100` rounded to 2 decimal
places in `src/main.py`. -/
theorem C6_breaches_uptime (ws : List ℚ) (t : ℤ) (h : ws ≠ []) :
    (Api.metricsOf ws t).breaches = (ws.filter (fun l => (t : ℚ) < l)).length ∧
    (MainPy.metricsOf ws t).breaches = (ws.filter (fun l => (t : ℚ) < l)).length ∧
    (ws.filter (fun l => l ≤ (t : ℚ))).length + (ws.filter (fun l => (t : ℚ) < l)).length
      = ws.length ∧
    (Api.metricsOf ws t).avg_uptime =
      pyRound 4 (((ws.length : ℚ) - ((ws.filter (fun l => (t : ℚ) < l)).length : ℚ)) /
        (ws.length : ℚ)) ∧
    (MainPy.metricsOf ws t).avg_uptime =
      pyRound 2 ((((ws.length : ℚ) - ((ws.filter (fun l => (t : ℚ) < l)).length : ℚ)) /
        (ws.length : ℚ)) * 100) := by
  refine ⟨rfl, rfl, length_filter_le_add_lt (t : ℚ) ws, rfl, ?_⟩
  show pyRound 2 (if ws = [] then 0 else
      (((ws.filter (fun l => l ≤ (t : ℚ))).length : ℚ) / (ws.length : ℚ)) * 100) = _
  rw [if_neg h]
  congr 1
  have hp := length_filter_le_add_lt (t : ℚ) ws
  have hcast : ((ws.filter (fun l => l ≤ (t : ℚ))).length : ℚ) =
      (ws.length : ℚ) - ((ws.filter (fun l => (t : ℚ) < l)).length : ℚ) := by
    have h2 := congrArg (fun n : ℕ => (n : ℚ)) hp
    push_cast at h2
    linarith
  rw [hcast]

/-- Witness for C6 at the spec's worked example. -/
theorem C6_breaches_uptime_witness :
    (Api.metricsOf ws5 150).breaches = (ws5.filter (fun l => (150 : ℚ) < l)).length ∧
    (MainPy.metricsOf ws5 150).breaches = (ws5.filter (fun l => (150 : ℚ) < l)).length ∧
    (ws5.filter (fun l => l ≤ (150 : ℚ))).length +
      (ws5.filter (fun l => (150 : ℚ) < l)).length = ws5.length ∧
    (Api.metricsOf ws5 150).avg_uptime =
      pyRound 4 (((ws5.length : ℚ) - ((ws5.filter (fun l => (150 : ℚ) < l)).length : ℚ)) /
        (ws5.length : ℚ)) ∧
    (MainPy.metricsOf ws5 150).avg_uptime =
      pyRound 2 ((((ws5.length : ℚ) - ((ws5.filter (fun l => (150 : ℚ) < l)).length : ℚ)) /
        (ws5.length : ℚ)) * 100) :=
  C6_breaches_uptime ws5 150 (by with_unfolding_all decide)

/-- Claim C7 (counterexample): the region lookup of `src/api/latency.py` is
not case-sensitive — querying `"emea"` against a record stored as `"EMEA"`
selects the record, so the two case-variant queries select the same record
set there. -/
theorem C7_counterexample_api_case_insensitive :
    Api.regionData [emeaRec] "emea" = [emeaRec] ∧
    Api.regionData [emeaRec] "EMEA" = [emeaRec] ∧
    "emea" ≠ "EMEA" := by
  refine ⟨?_, ?_, ?_⟩
  · with_unfolding_all rfl
  · with_unfolding_all rfl
  · with_unfolding_all decide

/-- Claim C7 (amended): the lookup of `src/main.py` compares the stored and
queried regions by exact, case-sensitive equality; the lookup of
`src/api/latency.py` lower-cases both sides first, so region strings
differing only in case select the same record set there. -/
theorem C7_region_matching (data : List Record) (q : String) (rec : Record) :
    (rec ∈ MainPy.regionData data q ↔ rec ∈ data ∧ rec.region = q) ∧
    (rec ∈ Api.regionData data q ↔ rec ∈ data ∧ strLower rec.region = strLower q) := by
  constructor
  · rw [MainPy.regionData, List.mem_filter]
    simp only [beq_iff_eq]
  · rw [Api.regionData, List.mem_filter]
    simp only [beq_iff_eq]

/-- Claim C8 (counterexample): one region's degenerate data can abort the
whole query in `src/api/latency.py` — a single record whose latency value
`float()` cannot parse makes `analyze_latency` raise an internal error, so
neither the offending region `"a"` nor the unrelated region `"b"` receives a
summary. -/
theorem C8_counterexample_api_abort :
    Api.analyze_latency [badRec] ["a", "b"] 100 = Except.error () := by
  with_unfolding_all rfl

/-- Claim C8 (amended): `calculate_metrics` of `src/main.py` never raises —
every requested region receives a summary for every dataset and threshold —
and `analyze_latency` of `src/api/latency.py` raises no error and gives every
requested region a summary provided no record matched by a requested region
carries a latency value that `float()` cannot parse (unparseable values in
regions nobody queried are filtered out before `float()` runs and are
harmless); with such a value in a matched record it aborts the whole request
(see the counterexample). -/
theorem C8_no_error_processing (data : List Record) (regions : List String) (t : ℤ) :
    (∀ r ∈ regions, ∃ m, (r, m) ∈ MainPy.calculate_metrics data regions t) ∧
    ((∀ r ∈ regions, ∀ rec ∈ Api.regionData data r, rec.latency ≠ some LatVal.bad) →
      ∃ res, Api.analyze_latency data regions t = Except.ok res ∧
        ∀ r ∈ regions, ∃ m, (r, m) ∈ res) :=
  ⟨calculate_metrics_total data regions t, fun hnb => analyze_ok data t regions hnb⟩

/-- Witness for C8 on the sample dataset extended with an unparseable latency
in the unqueried region `"a"`: the request for `"emea"` and `"nosuch"` still
succeeds and serves both regions. -/
theorem C8_no_error_processing_witness :
    (∀ r ∈ ["emea", "nosuch"], ∃ m,
      (r, m) ∈ MainPy.calculate_metrics (MainPy.sampleData ++ [badRec])
        ["emea", "nosuch"] 180) ∧
    (∃ res, Api.analyze_latency (MainPy.sampleData ++ [badRec]) ["emea", "nosuch"] 180
        = Except.ok res ∧
      ∀ r ∈ ["emea", "nosuch"], ∃ m, (r, m) ∈ res) :=
  ⟨(C8_no_error_processing (MainPy.sampleData ++ [badRec]) ["emea", "nosuch"] 180).1,
   (C8_no_error_processing (MainPy.sampleData ++ [badRec]) ["emea", "nosuch"] 180).2
     (by with_unfolding_all decide)⟩

/-- Claim C9 (confirmed): for every non-empty working set, the p95 computed
by `calculate_percentile` of `src/api/latency.py` lies within
`[min(working_set), max(working_set)]`. -/
theorem C9_p95_within_min_max (ws : List ℚ) (h : ws ≠ []) :
    ws.minimum ≤ (Api.calculate_percentile ws 95 : WithTop ℚ) ∧
    ((Api.calculate_percentile ws 95 : ℚ) : WithBot ℚ) ≤ ws.maximum := by
  obtain ⟨a, ha, b, hb, hle, hge⟩ := percentile_sandwich ws h
  constructor
  · exact List.minimum_le_coe_iff.mpr ⟨a, ha, hle⟩
  · exact List.coe_le_maximum_iff.mpr ⟨b, hb, hge⟩

/-- Witness for C9 at the spec's worked example. -/
theorem C9_p95_within_min_max_witness :
    ws5.minimum ≤ (Api.calculate_percentile ws5 95 : WithTop ℚ) ∧
    ((Api.calculate_percentile ws5 95 : ℚ) : WithBot ℚ) ≤ ws5.maximum :=
  C9_p95_within_min_max ws5 (by with_unfolding_all decide)

/-- Claim C10 (counterexample): the two implementations are not behaviorally
equivalent — on the same dataset, region and threshold they return different
summaries (p95 `428` vs `500`, uptime `4/5` vs `80`). -/
theorem C10_counterexample_implementations_differ :
    Api.analyze_latency data5 ["a"] 150 = Except.ok [("a", ⟨198, 428, 4 / 5, 1⟩)] ∧
    MainPy.calculate_metrics data5 ["a"] 150 = [("a", ⟨198, 500, 80, 1⟩)] ∧
    (⟨198, 428, 4 / 5, 1⟩ : RegionMetrics) ≠ ⟨198, 500, 80, 1⟩ := by
  refine ⟨?_, ?_, ?_⟩
  · with_unfolding_all rfl
  · with_unfolding_all rfl
  · with_unfolding_all decide

/-- Claim C10 (amended): on identical working sets the two implementations do
agree on the breach count and on the rounded mean latency, but they are not
behaviorally equivalent overall (see the counterexample; they differ on p95,
uptime, region matching, latency-field handling, and load fallback). -/
theorem C10_breaches_avg_agree (ws : List ℚ) (t : ℤ) :
    (Api.metricsOf ws t).breaches = (MainPy.metricsOf ws t).breaches ∧
    (Api.metricsOf ws t).avg_latency = (MainPy.metricsOf ws t).avg_latency :=
  ⟨rfl, rfl⟩

end LatencyVerif
